import Mathlib

/-!
# hazetunnel: the request handler and the instance registry of `api/proxy.go`

A shallow embedding of `hazetunnel/api/proxy.go`.  Go pointers that may be nil are
`Option`s, the package globals (`proxyInstanceMap`, `Config`, `utls.DefaultWeights`) are
fields of an explicit `World`, and the library calls whose result depends on code outside
the repository (`url.Parse`, `(*http.Server).ListenAndServe`) are fields of an `Env`.
-/

namespace Hazetunnel

/-! ## Library values: `net/url`, `context`, `net/http`, `utls`, `goproxy` -/

/-- The fields of `net/url.URL` that a proxy URL or a request target carries. -/
structure URL where
  Scheme : String
  Opaque : String
  Host : String
  Path : String
  RawQuery : String
  Fragment : String
deriving DecidableEq, Repr

/-- A key of a `context.Context`.  Go compares keys by dynamic type and value, so a key of
this package's `type contextKey string` never equals a key of another type. -/
inductive CtxKey where
  | contextKey (s : String)
  | foreign (typeName : String) (s : String)
deriving DecidableEq, Repr

/-- Line 17: `const payloadKey contextKey = "payload"`. -/
def payloadKey : CtxKey := CtxKey.contextKey "payload"

/-- A value stored in a context (`any` in Go): a string, or some other value. -/
inductive CtxValue where
  | str (s : String)
  | other (tag : Nat)
deriving DecidableEq, Repr

/-- A `context.Context` as the chain of its `WithValue` frames, innermost first. -/
abbrev Context := List (CtxKey × CtxValue)

/-- The value of `context.Background()`: no frames. -/
def Context.Background : Context := []

/-- The call `context.WithValue(parent, key, val)`. -/
def Context.WithValue (parent : Context) (key : CtxKey) (val : CtxValue) : Context :=
  (key, val) :: parent

/-- The call `c.Value(key)`: the innermost frame with that key, `nil` when there is none. -/
def Context.Value : Context → CtxKey → Option CtxValue
  | [], _ => none
  | (k, v) :: parent, key => if k = key then some v else Context.Value parent key

/-- An `*http.Request`: the target URL, and the context the request carries. -/
structure Request where
  Method : String
  URL : URL
  Host : String
  ctx : Context
deriving DecidableEq, Repr

/-- The call `req.Context()`. -/
def Request.Context (req : Request) : Context := req.ctx

/-- The call `req.WithContext(c)`: a copy of the request with its context replaced. -/
def Request.WithContext (req : Request) (c : Hazetunnel.Context) : Request := { req with ctx := c }

/-- An `*http.Response` (never nil: a nil response is `none : Option Response`). -/
structure Response where
  StatusCode : Nat
  ContentType : String
  Body : String
deriving DecidableEq, Repr

/-- The `utls.ClientHelloID` constants. -/
inductive ClientHelloID where
  | HelloGolang
  | HelloRandomized
  | HelloRandomizedALPN
  | HelloRandomizedNoALPN
  | HelloFirefox_Auto
  | HelloChrome_Auto
deriving DecidableEq, Repr

/-- The fields of `utls.Config` the handler sets; the others keep their zero value. -/
structure UTLSConfig where
  InsecureSkipVerify : Bool
  OmitEmptyPsk : Bool
deriving DecidableEq, Repr

/-- The backdrop transports a round tripper can be built on. -/
inductive Transport where
  | DefaultTransport
deriving DecidableEq, Repr

/-- The arguments `sf.NewUTLSHTTPRoundTripperWithProxy` records in the round tripper it
returns, in the order of the call. -/
structure UTLSHTTPRoundTripper where
  clientHelloID : ClientHelloID
  uTlsConfig : UTLSConfig
  backdropTransport : Transport
  removeSNI : Bool
  proxyURL : Option URL
deriving DecidableEq, Repr

/-- What `ctx.RoundTripper` can hold: the `goproxy.RoundTripperFunc` of lines 114-117, which
delegates to the uTLS round tripper it closes over, or a round tripper installed by
somebody else. -/
inductive RoundTripper where
  | utlsFunc (roundTripper : UTLSHTTPRoundTripper)
  | foreign (tag : Nat)
deriving DecidableEq, Repr

/-- A `*goproxy.ProxyCtx`: the request the proxy will send, the round tripper (nil for the
proxy's own transport), and the messages passed to `ctx.Logf`, oldest first. -/
structure ProxyCtx where
  Req : Request
  RoundTripper : Option RoundTripper
  Session : Nat
  logf : List String
deriving DecidableEq, Repr

/-- The call `ctx.Logf(msg)`. -/
def ProxyCtx.Logf (ctx : ProxyCtx) (msg : String) : ProxyCtx :=
  { ctx with logf := ctx.logf ++ [msg] }

/-- A finite, non-negative `float64`: the value `mant / 2 ^ shift`. -/
structure Float64 where
  mant : Nat
  shift : Nat
deriving DecidableEq, Repr

/-- The number a `Float64` stands for. -/
def Float64.toRat (x : Float64) : ℚ := (x.mant : ℚ) / 2 ^ x.shift

/-- The quotient `n / d` rounded to the nearest integer, a tie going to the even one. -/
def roundHalfEven (n d : Nat) : Nat :=
  if 2 * (n % d) > d ∨ (2 * (n % d) = d ∧ (n / d) % 2 = 1) then n / d + 1 else n / d

/-- The least `k` from the given one, at most `fuel` further, with `2 ^ 52 ≤ n / d * 2 ^ k`:
the scaling that leaves a 53-bit significand.  It stops at `2 ^ (-1074)`, the spacing of
the subnormal numbers. -/
def significandShift : Nat → Nat → Nat → Nat → Nat
  | 0, _, _, k => k
  | fuel + 1, n, d, k =>
    if n * 2 ^ k < d * 2 ^ 52 then significandShift fuel n d (k + 1) else k

/-- The `float64` a Go constant `digits / 10 ^ scale` below `2 ^ 53` converts to: the
nearest representable value, ties to even (`0.7` is `Float64.ofDecimal 7 1`). -/
def Float64.ofDecimal (digits scale : Nat) : Float64 :=
  let k := significandShift 1074 digits (10 ^ scale) 0
  { mant := roundHalfEven (digits * 2 ^ k) (10 ^ scale), shift := k }

/-- The struct `utls.Weights`: one `float64` per optional feature of a randomized
ClientHello. -/
structure Weights where
  Extensions_Append_ALPN : Float64
  TLSVersMax_Set_VersionTLS13 : Float64
  CipherSuites_Remove_RandomCiphers : Float64
  SigAndHashAlgos_Append_ECDSAWithSHA1 : Float64
  SigAndHashAlgos_Append_ECDSAWithP521AndSHA512 : Float64
  SigAndHashAlgos_Append_PSSWithSHA256 : Float64
  SigAndHashAlgos_Append_PSSWithSHA384_PSSWithSHA512 : Float64
  CurveIDs_Append_X25519 : Float64
  CurveIDs_Append_CurveP521 : Float64
  Extensions_Append_Padding : Float64
  Extensions_Append_Status : Float64
  Extensions_Append_SCT : Float64
  Extensions_Append_Reneg : Float64
  Extensions_Append_EMS : Float64
  FirstKeyShare_Set_CurveP256 : Float64
  Extensions_Append_ALPS : Float64
deriving DecidableEq, Repr

/-- Every field of a weight table, in the order of the struct. -/
def Weights.toList (w : Weights) : List Float64 :=
  [w.Extensions_Append_ALPN, w.TLSVersMax_Set_VersionTLS13,
   w.CipherSuites_Remove_RandomCiphers, w.SigAndHashAlgos_Append_ECDSAWithSHA1,
   w.SigAndHashAlgos_Append_ECDSAWithP521AndSHA512, w.SigAndHashAlgos_Append_PSSWithSHA256,
   w.SigAndHashAlgos_Append_PSSWithSHA384_PSSWithSHA512, w.CurveIDs_Append_X25519,
   w.CurveIDs_Append_CurveP521, w.Extensions_Append_Padding, w.Extensions_Append_Status,
   w.Extensions_Append_SCT, w.Extensions_Append_Reneg, w.Extensions_Append_EMS,
   w.FirstKeyShare_Set_CurveP256, w.Extensions_Append_ALPS]

/-! ## The configuration of an instance -/

/-- Modelled from the spec: the declaration of `ProxySetup` is not in `proxy.go`.  The spec
gives the per-instance configuration as `id, bindAddress, bindPort, payload,
upstreamProxyURL?`; the field names are the ones `proxy.go` reads, and each is a string
(`Flags.Addr + ":" + Flags.Port`, `len(Flags.UpstreamProxy)`, `Flags.Id == "cli"`). -/
structure ProxySetup where
  Addr : String
  Port : String
  Id : String
  UpstreamProxy : String
  Payload : String
deriving DecidableEq, Repr

/-- The errors `ListenAndServe` returns: the sentinel `http.ErrServerClosed`, or any other
error with its message (it never returns nil). -/
inductive ServeError where
  | ErrServerClosed
  | other (msg : String)
deriving DecidableEq, Repr

/-! ## The proxy, the server and the registry -/

/-- The handlers `HandleConnect` can register; `goproxy.AlwaysMitm` is the only one used. -/
inductive ConnectHandler where
  | AlwaysMitm
deriving DecidableEq, Repr

/-- A request handler registered with `OnRequest().DoFunc`: the closure of lines 61-120,
as the `Flags` it captures. -/
inductive ReqHandler where
  | onRequestOf (Flags : ProxySetup)
deriving DecidableEq, Repr

/-- A response handler registered with `OnResponse().DoFunc`. -/
inductive RespHandler where
  | PayloadInjector
deriving DecidableEq, Repr

/-- A `*goproxy.ProxyHttpServer`: its verbosity and its handlers in registration order. -/
structure ProxyHttpServer where
  Verbose : Bool
  httpsHandlers : List ConnectHandler
  reqHandlers : List ReqHandler
  respHandlers : List RespHandler
deriving DecidableEq, Repr

/-- The call `goproxy.NewProxyHttpServer()`: a proxy with no handler yet. -/
def NewProxyHttpServer : ProxyHttpServer :=
  { Verbose := false, httpsHandlers := [], reqHandlers := [], respHandlers := [] }

/-- An `*http.Server`, lines 43-46. -/
structure Server where
  Addr : String
  Handler : ProxyHttpServer
deriving DecidableEq, Repr

/-- A `context.CancelFunc`, as the number of the cancellable context it belongs to. -/
structure CancelFunc where
  ctxId : Nat
deriving DecidableEq, Repr

/-- Lines 19-22. -/
structure ProxyInstance where
  Server : Server
  Cancel : CancelFunc
deriving DecidableEq, Repr

/-- A Go `map[string]*ProxyInstance`: at most one entry per key. -/
abbrev InstanceMap := List (String × ProxyInstance)

/-- The read `m[id]`: `none` is the nil entry of an absent key. -/
def InstanceMap.get (m : InstanceMap) (id : String) : Option ProxyInstance :=
  match m with
  | [] => none
  | (k, v) :: rest => if k = id then some v else InstanceMap.get rest id

/-- The assignment `m[id] = v`: the entry of `id` is replaced, or added. -/
def InstanceMap.set (m : InstanceMap) (id : String) (v : ProxyInstance) : InstanceMap :=
  (id, v) :: m.filter (fun e => decide (e.1 ≠ id))

/-- Modelled from the spec: the global `Config` is declared outside `proxy.go`; the spec
lists a verbosity flag in the configuration, and `proxy.go` reads `Config.Verbose`. -/
structure GlobalConfig where
  Verbose : Bool
deriving DecidableEq, Repr

/-- The state of the process: the package globals, the number of cancellable contexts
created so far, and the lines written with the `log` package. -/
structure World where
  proxyInstanceMap : InstanceMap
  Config : GlobalConfig
  DefaultWeights : Weights
  caLoaded : Bool
  contexts : Nat
  log : List String
deriving DecidableEq, Repr

/-- What lies outside the repository: `url.Parse`, the body of the error response, and the
error `ListenAndServe` ends with for a given server. -/
structure Env where
  urlParse : String → Except String URL
  syntheticErrorResponse : Request → ProxyCtx → String → Response
  ListenAndServe : Server → ServeError

/-- Modelled from the spec: `invalidUpstreamProxyResponse` is not in `proxy.go`.  The spec
says that for a configured upstream proxy that fails to parse the pipeline "returns a
synthetic error response to the client describing the invalid configuration": the helper
yields a response, a function of the request, the context and the offending string. -/
def invalidUpstreamProxyResponse (env : Env) (req : Request) (ctx : ProxyCtx)
    (upstreamProxy : String) : Response :=
  env.syntheticErrorResponse req ctx upstreamProxy

/-- Modelled from the spec: `loadCA` is not in `proxy.go`.  Line 34 says "Load CA if not
already loaded", and the spec has the CA material "loaded once at process start". -/
def loadCA (w : World) : World := { w with caLoaded := true }

/-! ## `setupProxy`: the request handler -/

/-- The table assigned to `utls.DefaultWeights` on lines 64-81. -/
def handlerWeights : Weights :=
  { Extensions_Append_ALPN := Float64.ofDecimal 7 1
    TLSVersMax_Set_VersionTLS13 := Float64.ofDecimal 10 1
    CipherSuites_Remove_RandomCiphers := Float64.ofDecimal 4 1
    SigAndHashAlgos_Append_ECDSAWithSHA1 := Float64.ofDecimal 63 2
    SigAndHashAlgos_Append_ECDSAWithP521AndSHA512 := Float64.ofDecimal 59 2
    SigAndHashAlgos_Append_PSSWithSHA256 := Float64.ofDecimal 51 2
    SigAndHashAlgos_Append_PSSWithSHA384_PSSWithSHA512 := Float64.ofDecimal 9 1
    CurveIDs_Append_X25519 := Float64.ofDecimal 71 2
    CurveIDs_Append_CurveP521 := Float64.ofDecimal 46 2
    Extensions_Append_Padding := Float64.ofDecimal 62 2
    Extensions_Append_Status := Float64.ofDecimal 74 2
    Extensions_Append_SCT := Float64.ofDecimal 46 2
    Extensions_Append_Reneg := Float64.ofDecimal 75 2
    Extensions_Append_EMS := Float64.ofDecimal 77 2
    FirstKeyShare_Set_CurveP256 := Float64.ofDecimal 25 2
    Extensions_Append_ALPS := Float64.ofDecimal 33 2 }

/-- The call `sf.NewUTLSHTTPRoundTripperWithProxy(...)` of lines 109-112. -/
def NewUTLSHTTPRoundTripperWithProxy (clientHelloID : ClientHelloID) (uTlsConfig : UTLSConfig)
    (backdropTransport : Transport) (removeSNI : Bool) (proxyURL : Option URL) :
    UTLSHTTPRoundTripper :=
  { clientHelloID := clientHelloID, uTlsConfig := uTlsConfig,
    backdropTransport := backdropTransport, removeSNI := removeSNI, proxyURL := proxyURL }

/-- What a call of the request handler leaves: the two values it returns, the proxy
context it was given, and the globals. -/
structure Handled where
  req : Request
  resp : Option Response
  ctx : ProxyCtx
  world : World
deriving DecidableEq, Repr

/-- Lines 101-119 of the handler, reached with `upstreamProxy` nil or parsed: the `http`
skip, else the round tripper. -/
def onRequestScheme (clientHelloId : ClientHelloID) (req : Request) (ctx : ProxyCtx)
    (w : World) (upstreamProxy : Option URL) : Handled :=
  let ctx := ctx.Logf ("Scheme: " ++ req.URL.Scheme)
  if req.URL.Scheme = "http" then
    let ctx := ctx.Logf "Skipping TLS for HTTP request"
    { req := req, resp := none, ctx := ctx, world := w }
  else
    let roundTripper := NewUTLSHTTPRoundTripperWithProxy clientHelloId
      { InsecureSkipVerify := true, OmitEmptyPsk := true } Transport.DefaultTransport false
      upstreamProxy
    let ctx := { ctx with RoundTripper := some (RoundTripper.utlsFunc roundTripper) }
    { req := req, resp := none, ctx := ctx, world := w }

/-- The function `setupProxy` registers with `proxy.OnRequest().DoFunc`, lines 61-120. -/
def onRequest (env : Env) (Flags : ProxySetup) (req : Request) (ctx : ProxyCtx)
    (w : World) : Handled :=
  let clientHelloId := ClientHelloID.HelloRandomizedALPN
  let w := { w with DefaultWeights := handlerWeights }
  let withPayload := Context.WithValue ctx.Req.Context payloadKey (CtxValue.str Flags.Payload)
  let ctx := { ctx with Req := req.WithContext withPayload }
  if Flags.UpstreamProxy.utf8ByteSize ≠ 0 then
    match env.urlParse Flags.UpstreamProxy with
    | Except.error _ =>
      { req := req, resp := some (invalidUpstreamProxyResponse env req ctx Flags.UpstreamProxy),
        ctx := ctx, world := w }
    | Except.ok proxyUrl => onRequestScheme clientHelloId req ctx w (some proxyUrl)
  else
    onRequestScheme clientHelloId req ctx w none

/-- The proxy context once lines 84-90 ran: `ctx.Req` is the request with the payload in its
context. -/
def withPayload (Flags : ProxySetup) (req : Request) (ctx : ProxyCtx) : ProxyCtx :=
  { ctx with
    Req := req.WithContext
      (Context.WithValue ctx.Req.Context payloadKey (CtxValue.str Flags.Payload)) }

/-- The globals once lines 64-81 ran: the table is in `utls.DefaultWeights`. -/
def withWeights (w : World) : World := { w with DefaultWeights := handlerWeights }

/-- Running a registered request handler. -/
def ReqHandler.Handle (env : Env) : ReqHandler → Request → ProxyCtx → World → Handled
  | ReqHandler.onRequestOf Flags => onRequest env Flags

/-- Lines 57-125: `AlwaysMitm` for CONNECT, the request handler, the payload injector. -/
def setupProxy (proxy : ProxyHttpServer) (Flags : ProxySetup) : ProxyHttpServer :=
  let proxy := { proxy with httpsHandlers := proxy.httpsHandlers ++ [ConnectHandler.AlwaysMitm] }
  let proxy := { proxy with reqHandlers := proxy.reqHandlers ++ [ReqHandler.onRequestOf Flags] }
  { proxy with respHandlers := proxy.respHandlers ++ [RespHandler.PayloadInjector] }

/-! ## `initServer` and `Launch` -/

/-- Lines 30-55.  The mutex is taken on entry and released on return; in this sequential
model it is free at every call. -/
def initServer (Flags : ProxySetup) (w : World) : Server × World :=
  let w := loadCA w
  let proxy := NewProxyHttpServer
  let proxy := { proxy with Verbose := w.Config.Verbose }
  let proxy := setupProxy proxy Flags
  let server : Server := { Addr := Flags.Addr ++ ":" ++ Flags.Port, Handler := proxy }
  let cancel : CancelFunc := { ctxId := w.contexts }
  let w := { w with contexts := w.contexts + 1 }
  let w := { w with proxyInstanceMap :=
    w.proxyInstanceMap.set Flags.Id { Server := server, Cancel := cancel } }
  (server, w)

/-- The text of an error, `err.Error()`. -/
def ServeError.Error : ServeError → String
  | ServeError.ErrServerClosed => "http: Server closed"
  | ServeError.other msg => msg

/-- How a call ends: it returns to its caller, or the process exits (`os.Exit`). -/
inductive Outcome where
  | returned (w : World)
  | exited (code : Nat) (w : World)
deriving DecidableEq, Repr

/-- The exit status of the process when the call ended it, `none` when the call returned. -/
def Outcome.exitCode : Outcome → Option Nat
  | Outcome.returned _ => none
  | Outcome.exited code _ => some code

/-- The state the call left. -/
def Outcome.world : Outcome → World
  | Outcome.returned w => w
  | Outcome.exited _ w => w

/-- The call `log.Println(...)`, `log.Fatalf` before it exits: one more line in the log. -/
def World.logLine (w : World) (line : String) : World := { w with log := w.log ++ [line] }

/-- Lines 128-138.  `log.Fatalf` writes the line and calls `os.Exit(1)`. -/
def Launch (env : Env) (Flags : ProxySetup) (w : World) : Outcome :=
  let (server, w) := initServer Flags w
  let w := if Flags.Id = "cli" ∨ w.Config.Verbose = true then
    w.logLine ("Hazetunnel listening at " ++ server.Addr) else w
  let err := env.ListenAndServe server
  if err ≠ ServeError.ErrServerClosed then
    Outcome.exited 1 (w.logLine ("HTTP server ListenAndServe: " ++ err.Error))
  else
    Outcome.returned w

/-! ## Concrete inputs -/

/-- A stand-in for `url.Parse` on the two proxy strings of the examples: as `url.Parse`
does, it splits `http://127.0.0.1:8080` into scheme and host and rejects `://bad` ("missing
protocol scheme"); it reports every other string as an error. -/
def sampleParse (s : String) : Except String URL :=
  if s = "http://127.0.0.1:8080" then
    Except.ok { Scheme := "http", Opaque := "", Host := "127.0.0.1:8080", Path := "",
                RawQuery := "", Fragment := "" }
  else if s = "://bad" then Except.error "missing protocol scheme"
  else Except.error "not in the table"

/-- An environment for the examples: a 400 response naming the proxy string, and a
listener that fails to bind port 8080 and otherwise serves until it is closed. -/
def sampleEnv : Env :=
  { urlParse := sampleParse
    syntheticErrorResponse := fun _ _ upstreamProxy =>
      { StatusCode := 400, ContentType := "text/plain",
        Body := "Invalid upstream proxy: " ++ upstreamProxy }
    ListenAndServe := fun server =>
      if server.Addr = "127.0.0.1:8080" then
        ServeError.other "listen tcp 127.0.0.1:8080: bind: address already in use"
      else ServeError.ErrServerClosed }

/-- A request for `scheme://example.com/`. -/
def sampleRequest (scheme : String) : Request :=
  { Method := "GET"
    URL := { Scheme := scheme, Opaque := "", Host := "example.com", Path := "/",
             RawQuery := "", Fragment := "" }
    Host := "example.com", ctx := Context.Background }

/-- The proxy context goproxy hands to the first request handler: `ctx.Req` is the
request, no round tripper is set. -/
def sampleCtx (req : Request) : ProxyCtx :=
  { Req := req, RoundTripper := none, Session := 1, logf := [] }

/-- A configuration with the given identifier, port and upstream proxy string. -/
def sampleFlags (id port upstreamProxy : String) : ProxySetup :=
  { Addr := "127.0.0.1", Port := port, Id := id, UpstreamProxy := upstreamProxy,
    Payload := "alert(1)" }

/-- A weight table for `utls.DefaultWeights` before any handler ran: the maximum version
weight is the default named on line 66 ("0.4 default"), the other entries are placeholders. -/
def sampleDefaultWeights : Weights :=
  { Extensions_Append_ALPN := Float64.mk 0 0
    TLSVersMax_Set_VersionTLS13 := Float64.ofDecimal 4 1
    CipherSuites_Remove_RandomCiphers := Float64.mk 0 0
    SigAndHashAlgos_Append_ECDSAWithSHA1 := Float64.mk 0 0
    SigAndHashAlgos_Append_ECDSAWithP521AndSHA512 := Float64.mk 0 0
    SigAndHashAlgos_Append_PSSWithSHA256 := Float64.mk 0 0
    SigAndHashAlgos_Append_PSSWithSHA384_PSSWithSHA512 := Float64.mk 0 0
    CurveIDs_Append_X25519 := Float64.mk 0 0
    CurveIDs_Append_CurveP521 := Float64.mk 0 0
    Extensions_Append_Padding := Float64.mk 0 0
    Extensions_Append_Status := Float64.mk 0 0
    Extensions_Append_SCT := Float64.mk 0 0
    Extensions_Append_Reneg := Float64.mk 0 0
    Extensions_Append_EMS := Float64.mk 0 0
    FirstKeyShare_Set_CurveP256 := Float64.mk 0 0
    Extensions_Append_ALPS := Float64.mk 0 0 }

/-- The process before any instance was started. -/
def World.initial : World :=
  { proxyInstanceMap := [], Config := { Verbose := false },
    DefaultWeights := sampleDefaultWeights, caLoaded := false, contexts := 0, log := [] }

/-! ## Lemmas on the embedding -/

/-- Go's `len(s) != 0` on a string is `s != ""`. -/
theorem utf8ByteSize_eq_zero_iff (s : String) : s.utf8ByteSize = 0 ↔ s = "" := by
  rcases s with ⟨l⟩
  cases l with
  | nil => simp [String.utf8ByteSize, String.utf8ByteSize.go]
  | cons c cs =>
    have hc := Char.utf8Size_pos c
    simp [String.utf8ByteSize, String.utf8ByteSize.go, String.ext_iff]
    omega

theorem onRequest_empty (env : Env) (Flags : ProxySetup) (req : Request) (ctx : ProxyCtx)
    (w : World) (h : Flags.UpstreamProxy = "") :
    onRequest env Flags req ctx w =
      onRequestScheme ClientHelloID.HelloRandomizedALPN req (withPayload Flags req ctx)
        (withWeights w) none := by
  have h0 : Flags.UpstreamProxy.utf8ByteSize = 0 := (utf8ByteSize_eq_zero_iff _).2 h
  simp [onRequest, h0, withPayload, withWeights]

theorem onRequest_parsed (env : Env) (Flags : ProxySetup) (req : Request) (ctx : ProxyCtx)
    (w : World) (h : Flags.UpstreamProxy ≠ "") (u : URL)
    (hu : env.urlParse Flags.UpstreamProxy = Except.ok u) :
    onRequest env Flags req ctx w =
      onRequestScheme ClientHelloID.HelloRandomizedALPN req (withPayload Flags req ctx)
        (withWeights w) (some u) := by
  have h0 : Flags.UpstreamProxy.utf8ByteSize ≠ 0 := fun h1 => h ((utf8ByteSize_eq_zero_iff _).1 h1)
  simp [onRequest, h0, hu, withPayload, withWeights]

theorem onRequest_unparsed (env : Env) (Flags : ProxySetup) (req : Request) (ctx : ProxyCtx)
    (w : World) (h : Flags.UpstreamProxy ≠ "") (e : String)
    (he : env.urlParse Flags.UpstreamProxy = Except.error e) :
    onRequest env Flags req ctx w =
      { req := req
        resp := some (invalidUpstreamProxyResponse env req (withPayload Flags req ctx)
          Flags.UpstreamProxy)
        ctx := withPayload Flags req ctx, world := withWeights w } := by
  have h0 : Flags.UpstreamProxy.utf8ByteSize ≠ 0 := fun h1 => h ((utf8ByteSize_eq_zero_iff _).1 h1)
  simp [onRequest, h0, he, withPayload, withWeights]

theorem onRequestScheme_http (c : ClientHelloID) (req : Request) (ctx : ProxyCtx) (w : World)
    (up : Option URL) (h : req.URL.Scheme = "http") :
    onRequestScheme c req ctx w up =
      { req := req, resp := none
        ctx := (ctx.Logf ("Scheme: " ++ req.URL.Scheme)).Logf "Skipping TLS for HTTP request"
        world := w } := by
  simp [onRequestScheme, h]

theorem onRequestScheme_tls (c : ClientHelloID) (req : Request) (ctx : ProxyCtx) (w : World)
    (up : Option URL) (h : req.URL.Scheme ≠ "http") :
    onRequestScheme c req ctx w up =
      { req := req, resp := none
        ctx := { ctx.Logf ("Scheme: " ++ req.URL.Scheme) with
          RoundTripper := some (RoundTripper.utlsFunc
            { clientHelloID := c
              uTlsConfig := { InsecureSkipVerify := true, OmitEmptyPsk := true }
              backdropTransport := Transport.DefaultTransport, removeSNI := false
              proxyURL := up }) }
        world := w } := by
  simp [onRequestScheme, h, NewUTLSHTTPRoundTripperWithProxy]

/-- The three ways the handler ends, by the upstream proxy string. -/
theorem onRequest_cases (env : Env) (Flags : ProxySetup) (req : Request) (ctx : ProxyCtx)
    (w : World) :
    (Flags.UpstreamProxy ≠ "" ∧ ∃ e, env.urlParse Flags.UpstreamProxy = Except.error e ∧
      onRequest env Flags req ctx w =
        { req := req
          resp := some (invalidUpstreamProxyResponse env req (withPayload Flags req ctx)
            Flags.UpstreamProxy)
          ctx := withPayload Flags req ctx, world := withWeights w }) ∨
    (∃ up : Option URL,
      ((Flags.UpstreamProxy = "" ∧ up = none) ∨
        (Flags.UpstreamProxy ≠ "" ∧ ∃ u, env.urlParse Flags.UpstreamProxy = Except.ok u ∧
          up = some u)) ∧
      onRequest env Flags req ctx w =
        onRequestScheme ClientHelloID.HelloRandomizedALPN req (withPayload Flags req ctx)
          (withWeights w) up) := by
  by_cases h : Flags.UpstreamProxy = ""
  · exact Or.inr ⟨none, Or.inl ⟨h, rfl⟩, onRequest_empty env Flags req ctx w h⟩
  · cases hp : env.urlParse Flags.UpstreamProxy with
    | error e => exact Or.inl ⟨h, e, rfl, onRequest_unparsed env Flags req ctx w h e hp⟩
    | ok u =>
      exact Or.inr ⟨some u, Or.inr ⟨h, u, rfl, rfl⟩, onRequest_parsed env Flags req ctx w h u hp⟩

theorem mem_setupProxy_reqHandlers (proxy : ProxyHttpServer) (Flags : ProxySetup)
    (hdl : ReqHandler) :
    hdl ∈ (setupProxy proxy Flags).reqHandlers ↔
      hdl ∈ proxy.reqHandlers ∨ hdl = ReqHandler.onRequestOf Flags := by
  simp [setupProxy]

theorem mem_initServer_reqHandlers (Flags : ProxySetup) (w : World) (hdl : ReqHandler) :
    hdl ∈ (initServer Flags w).1.Handler.reqHandlers ↔ hdl = ReqHandler.onRequestOf Flags := by
  simp [initServer, setupProxy, NewProxyHttpServer]

theorem InstanceMap.get_filter_ne (m : InstanceMap) (id k : String) (h : k ≠ id) :
    InstanceMap.get (m.filter (fun e => decide (e.1 ≠ id))) k = InstanceMap.get m k := by
  induction m with
  | nil => rfl
  | cons e rest ih =>
    rcases e with ⟨a, v⟩
    by_cases ha : a = id
    · subst ha
      have hak : a ≠ k := fun hk => h hk.symm
      simpa [List.filter_cons, InstanceMap.get, hak] using ih
    · by_cases hk : a = k
      · subst hk
        simp [List.filter_cons, ha, InstanceMap.get]
      · simpa [List.filter_cons, ha, InstanceMap.get, hk] using ih

theorem InstanceMap.get_set_self (m : InstanceMap) (id : String) (v : ProxyInstance) :
    InstanceMap.get (m.set id v) id = some v := by
  simp [InstanceMap.set, InstanceMap.get]

theorem InstanceMap.get_set_other (m : InstanceMap) (id k : String) (v : ProxyInstance)
    (h : k ≠ id) : InstanceMap.get (m.set id v) k = InstanceMap.get m k := by
  have hne : id ≠ k := fun e => h e.symm
  simp only [InstanceMap.set, InstanceMap.get, hne, if_false]
  exact InstanceMap.get_filter_ne m id k h

/-! ## The request handler: claims C1, C2, C4, C5, C8, C10 -/

/-- C1: for every configuration and every request whose URL scheme is `http`, the request
handler `setupProxy` registers leaves `ctx.RoundTripper` as it was, so no uTLS round tripper
(and with it no outbound TLS handshake) is set up for that request. -/
theorem http_request_keeps_round_tripper (env : Env) (Flags : ProxySetup) (hdl : ReqHandler)
    (req : Request) (ctx : ProxyCtx) (w : World)
    (hreg : hdl ∈ (setupProxy NewProxyHttpServer Flags).reqHandlers)
    (hs : req.URL.Scheme = "http") :
    (hdl.Handle env req ctx w).ctx.RoundTripper = ctx.RoundTripper := by
  have hh : hdl = ReqHandler.onRequestOf Flags := by
    simpa [NewProxyHttpServer] using (mem_setupProxy_reqHandlers _ Flags hdl).1 hreg
  subst hh
  show (onRequest env Flags req ctx w).ctx.RoundTripper = ctx.RoundTripper
  rcases onRequest_cases env Flags req ctx w with ⟨_, e, _, heq⟩ | ⟨up, _, heq⟩
  · rw [heq]; rfl
  · rw [heq, onRequestScheme_http _ _ _ _ _ hs]; rfl

/-- The theorem of C1 at a plain `http` request through a context that already carries a
round tripper of its own. -/
theorem http_request_keeps_round_tripper_witness :
    (sampleRequest "http").URL.Scheme = "http" ∧
    ((ReqHandler.onRequestOf (sampleFlags "a" "8080" "http://127.0.0.1:8080")).Handle sampleEnv
        (sampleRequest "http")
        { sampleCtx (sampleRequest "http") with RoundTripper := some (RoundTripper.foreign 7) }
        World.initial).ctx.RoundTripper = some (RoundTripper.foreign 7) :=
  ⟨by decide,
   http_request_keeps_round_tripper sampleEnv (sampleFlags "a" "8080" "http://127.0.0.1:8080")
     (ReqHandler.onRequestOf (sampleFlags "a" "8080" "http://127.0.0.1:8080"))
     (sampleRequest "http")
     { sampleCtx (sampleRequest "http") with RoundTripper := some (RoundTripper.foreign 7) }
     World.initial (by decide) (by decide)⟩

/-- C2: when the configured upstream proxy string is non-empty and `url.Parse` fails on it,
the handler returns the response of `invalidUpstreamProxyResponse` for that string, which is
not nil, and installs no round tripper; when the string is empty the handler does not depend
on `url.Parse` at all and returns a nil response. -/
theorem invalid_upstream_yields_error_response (env : Env) (Flags : ProxySetup) (req : Request)
    (ctx : ProxyCtx) (w : World) :
    (Flags.UpstreamProxy ≠ "" → ∀ e, env.urlParse Flags.UpstreamProxy = Except.error e →
      (onRequest env Flags req ctx w).resp =
          some (invalidUpstreamProxyResponse env req (onRequest env Flags req ctx w).ctx
            Flags.UpstreamProxy) ∧
        (onRequest env Flags req ctx w).resp ≠ none ∧
        (onRequest env Flags req ctx w).ctx.RoundTripper = ctx.RoundTripper) ∧
    (Flags.UpstreamProxy = "" →
      (onRequest env Flags req ctx w).resp = none ∧
        ∀ parse : String → Except String URL,
          onRequest { env with urlParse := parse } Flags req ctx w =
            onRequest env Flags req ctx w) := by
  constructor
  · intro h e he
    rw [onRequest_unparsed env Flags req ctx w h e he]
    exact ⟨rfl, by simp, rfl⟩
  · intro h
    refine ⟨?_, fun parse => ?_⟩
    · rw [onRequest_empty env Flags req ctx w h]
      by_cases hs : req.URL.Scheme = "http"
      · rw [onRequestScheme_http _ _ _ _ _ hs]
      · rw [onRequestScheme_tls _ _ _ _ _ hs]
    · rw [onRequest_empty env Flags req ctx w h, onRequest_empty _ Flags req ctx w h]

/-- The theorem of C2 at the proxy string `://bad`, which the parser rejects. -/
theorem invalid_upstream_yields_error_response_witness :
    (sampleFlags "a" "8080" "://bad").UpstreamProxy ≠ "" ∧
    sampleEnv.urlParse (sampleFlags "a" "8080" "://bad").UpstreamProxy =
      Except.error "missing protocol scheme" ∧
    (onRequest sampleEnv (sampleFlags "a" "8080" "://bad") (sampleRequest "https")
        (sampleCtx (sampleRequest "https")) World.initial).resp ≠ none :=
  ⟨by decide, rfl,
   ((invalid_upstream_yields_error_response sampleEnv (sampleFlags "a" "8080" "://bad")
      (sampleRequest "https") (sampleCtx (sampleRequest "https")) World.initial).1
      (by decide) "missing protocol scheme" rfl).2.1⟩

/-- C4, as stated, fails: an `http` request meets the upstream check first, and with the
unparsable proxy string `://bad` configured the handler answers it with the synthetic error
response instead of a nil response. -/
theorem http_request_gets_error_response_counterexample :
    (sampleRequest "http").URL.Scheme = "http" ∧
    (onRequest sampleEnv (sampleFlags "a" "8080" "://bad") (sampleRequest "http")
        (sampleCtx (sampleRequest "http")) World.initial).resp =
      some { StatusCode := 400, ContentType := "text/plain",
             Body := "Invalid upstream proxy: ://bad" } := by
  decide

/-- C4, amended: for a request with scheme `http`, when the configured upstream proxy string
is empty or parses, the handler returns the request with a nil response and leaves the round
tripper alone (plain HTTP forwarding); the upstream proxy is resolved before the scheme is
looked at, so with a non-empty string that fails to parse the `http` request gets the
synthetic error response. -/
theorem http_request_forwarded_when_upstream_valid (env : Env) (Flags : ProxySetup)
    (req : Request) (ctx : ProxyCtx) (w : World) (hs : req.URL.Scheme = "http") :
    ((Flags.UpstreamProxy = "" ∨ ∃ u, env.urlParse Flags.UpstreamProxy = Except.ok u) →
      (onRequest env Flags req ctx w).req = req ∧
        (onRequest env Flags req ctx w).resp = none ∧
        (onRequest env Flags req ctx w).ctx.RoundTripper = ctx.RoundTripper) ∧
    ((Flags.UpstreamProxy ≠ "" ∧ ∃ e, env.urlParse Flags.UpstreamProxy = Except.error e) →
      (onRequest env Flags req ctx w).req = req ∧
        (onRequest env Flags req ctx w).resp =
          some (invalidUpstreamProxyResponse env req (withPayload Flags req ctx)
            Flags.UpstreamProxy)) := by
  constructor
  · intro h
    by_cases h0 : Flags.UpstreamProxy = ""
    · rw [onRequest_empty env Flags req ctx w h0, onRequestScheme_http _ _ _ _ _ hs]
      exact ⟨rfl, rfl, rfl⟩
    · rcases h with h | ⟨u, hu⟩
      · exact absurd h h0
      · rw [onRequest_parsed env Flags req ctx w h0 u hu, onRequestScheme_http _ _ _ _ _ hs]
        exact ⟨rfl, rfl, rfl⟩
  · rintro ⟨h0, e, he⟩
    rw [onRequest_unparsed env Flags req ctx w h0 e he]
    exact ⟨rfl, rfl⟩

/-- The amended C4 at an `http` request with a well-formed upstream proxy. -/
theorem http_request_forwarded_when_upstream_valid_witness :
    (sampleRequest "http").URL.Scheme = "http" ∧
    (∃ u, sampleEnv.urlParse (sampleFlags "a" "8080" "http://127.0.0.1:8080").UpstreamProxy =
      Except.ok u) ∧
    (onRequest sampleEnv (sampleFlags "a" "8080" "http://127.0.0.1:8080") (sampleRequest "http")
        (sampleCtx (sampleRequest "http")) World.initial).resp = none :=
  ⟨by decide, ⟨_, rfl⟩,
   ((http_request_forwarded_when_upstream_valid sampleEnv
      (sampleFlags "a" "8080" "http://127.0.0.1:8080") (sampleRequest "http")
      (sampleCtx (sampleRequest "http")) World.initial (by decide)).1
      (Or.inr ⟨_, rfl⟩)).2.1⟩

/-- C5: whichever way the handler of an instance ends (error response for an unparsable
upstream proxy, `http` skip, round tripper), `ctx.Req` is the request with a context in which
`payloadKey` maps to exactly the `Flags.Payload` of the instance whose `setupProxy`
registered the handler; `ctx.Req` is the same on every path, as it is assigned before the
upstream proxy is parsed and before the scheme is looked at. -/
theorem payload_attached_on_every_path (env : Env) (Flags : ProxySetup) (w0 : World)
    (hdl : ReqHandler) (req : Request) (ctx : ProxyCtx) (w : World)
    (hreg : hdl ∈ (initServer Flags w0).1.Handler.reqHandlers) :
    (hdl.Handle env req ctx w).ctx.Req.Context.Value payloadKey =
        some (CtxValue.str Flags.Payload) ∧
      (hdl.Handle env req ctx w).ctx.Req =
        req.WithContext
          (Context.WithValue ctx.Req.Context payloadKey (CtxValue.str Flags.Payload)) := by
  have hh : hdl = ReqHandler.onRequestOf Flags := (mem_initServer_reqHandlers Flags w0 hdl).1 hreg
  subst hh
  have hreq : (onRequest env Flags req ctx w).ctx.Req =
      req.WithContext
        (Context.WithValue ctx.Req.Context payloadKey (CtxValue.str Flags.Payload)) := by
    rcases onRequest_cases env Flags req ctx w with ⟨_, e, _, heq⟩ | ⟨up, _, heq⟩
    · rw [heq]; rfl
    · rw [heq]
      by_cases hs : req.URL.Scheme = "http"
      · rw [onRequestScheme_http _ _ _ _ _ hs]; rfl
      · rw [onRequestScheme_tls _ _ _ _ _ hs]; rfl
  refine ⟨?_, hreq⟩
  show (onRequest env Flags req ctx w).ctx.Req.Context.Value payloadKey = _
  rw [hreq]
  simp [Request.WithContext, Request.Context, Context.WithValue, Context.Value]

/-- The theorem of C5 on the error path: the instance `a` has an unparsable upstream proxy,
and the incoming context already maps `payloadKey` to another value. -/
theorem payload_attached_on_every_path_witness :
    ReqHandler.onRequestOf (sampleFlags "a" "8080" "://bad") ∈
        (initServer (sampleFlags "a" "8080" "://bad") World.initial).1.Handler.reqHandlers ∧
    ((ReqHandler.onRequestOf (sampleFlags "a" "8080" "://bad")).Handle sampleEnv
        (sampleRequest "https")
        (sampleCtx ((sampleRequest "https").WithContext
          (Context.WithValue Context.Background payloadKey (CtxValue.str "old"))))
        World.initial).ctx.Req.Context.Value payloadKey = some (CtxValue.str "alert(1)") :=
  ⟨by decide,
   (payload_attached_on_every_path sampleEnv (sampleFlags "a" "8080" "://bad") World.initial
     (ReqHandler.onRequestOf (sampleFlags "a" "8080" "://bad")) (sampleRequest "https")
     (sampleCtx ((sampleRequest "https").WithContext
       (Context.WithValue Context.Background payloadKey (CtxValue.str "old"))))
     World.initial (by decide)).1⟩

/-- C8: for a request that reaches the outbound TLS setup (scheme not `http`, upstream proxy
string empty or parsed), the handler returns a nil response and installs a round tripper
built with `HelloRandomizedALPN`, `InsecureSkipVerify = true`, `OmitEmptyPsk = true`, on
`http.DefaultTransport`, and with the upstream proxy nil for an empty string and the parsed
URL of `Flags.UpstreamProxy` otherwise. -/
theorem tls_setup_round_tripper (env : Env) (Flags : ProxySetup) (req : Request)
    (ctx : ProxyCtx) (w : World) (hs : req.URL.Scheme ≠ "http") :
    (Flags.UpstreamProxy = "" →
      (onRequest env Flags req ctx w).resp = none ∧
        (onRequest env Flags req ctx w).ctx.RoundTripper =
          some (RoundTripper.utlsFunc
            { clientHelloID := ClientHelloID.HelloRandomizedALPN
              uTlsConfig := { InsecureSkipVerify := true, OmitEmptyPsk := true }
              backdropTransport := Transport.DefaultTransport, removeSNI := false
              proxyURL := none })) ∧
    (Flags.UpstreamProxy ≠ "" → ∀ u, env.urlParse Flags.UpstreamProxy = Except.ok u →
      (onRequest env Flags req ctx w).resp = none ∧
        (onRequest env Flags req ctx w).ctx.RoundTripper =
          some (RoundTripper.utlsFunc
            { clientHelloID := ClientHelloID.HelloRandomizedALPN
              uTlsConfig := { InsecureSkipVerify := true, OmitEmptyPsk := true }
              backdropTransport := Transport.DefaultTransport, removeSNI := false
              proxyURL := some u })) := by
  constructor
  · intro h
    rw [onRequest_empty env Flags req ctx w h, onRequestScheme_tls _ _ _ _ _ hs]
    exact ⟨rfl, rfl⟩
  · intro h u hu
    rw [onRequest_parsed env Flags req ctx w h u hu, onRequestScheme_tls _ _ _ _ _ hs]
    exact ⟨rfl, rfl⟩

/-- The theorem of C8 at an `https` request of an instance with the upstream proxy
`http://127.0.0.1:8080`: the round tripper carries the parsed URL. -/
theorem tls_setup_round_tripper_witness :
    (sampleRequest "https").URL.Scheme ≠ "http" ∧
    (sampleFlags "a" "8080" "http://127.0.0.1:8080").UpstreamProxy ≠ "" ∧
    (onRequest sampleEnv (sampleFlags "a" "8080" "http://127.0.0.1:8080")
        (sampleRequest "https") (sampleCtx (sampleRequest "https"))
        World.initial).ctx.RoundTripper =
      some (RoundTripper.utlsFunc
        { clientHelloID := ClientHelloID.HelloRandomizedALPN
          uTlsConfig := { InsecureSkipVerify := true, OmitEmptyPsk := true }
          backdropTransport := Transport.DefaultTransport, removeSNI := false
          proxyURL := some { Scheme := "http", Opaque := "", Host := "127.0.0.1:8080",
                             Path := "", RawQuery := "", Fragment := "" } }) :=
  ⟨by decide, by decide,
   ((tls_setup_round_tripper sampleEnv (sampleFlags "a" "8080" "http://127.0.0.1:8080")
      (sampleRequest "https") (sampleCtx (sampleRequest "https")) World.initial
      (by decide)).2 (by decide) _ rfl).2⟩

/-- C10: the handler installs the uTLS round tripper when the upstream proxy string is empty
or parses and the scheme is not the exact string `http`, and leaves `ctx.RoundTripper` as it
was otherwise (from a context without round tripper: one is set if and only if that
condition holds); a request with any scheme other than `http`, such as the empty one, `HTTP`
or `ws`, gets the same round tripper and the same nil or non-nil response as the same request
with scheme `https`; and the request returned is always the request given. -/
theorem round_tripper_installed_iff (env : Env) (Flags : ProxySetup) (req : Request)
    (ctx : ProxyCtx) (w : World) :
    (((Flags.UpstreamProxy = "" ∨ ∃ u, env.urlParse Flags.UpstreamProxy = Except.ok u) ∧
        req.URL.Scheme ≠ "http") →
      ∃ rt, (onRequest env Flags req ctx w).ctx.RoundTripper =
        some (RoundTripper.utlsFunc rt)) ∧
    (¬ ((Flags.UpstreamProxy = "" ∨ ∃ u, env.urlParse Flags.UpstreamProxy = Except.ok u) ∧
        req.URL.Scheme ≠ "http") →
      (onRequest env Flags req ctx w).ctx.RoundTripper = ctx.RoundTripper) ∧
    (ctx.RoundTripper = none →
      ((onRequest env Flags req ctx w).ctx.RoundTripper ≠ none ↔
        ((Flags.UpstreamProxy = "" ∨ ∃ u, env.urlParse Flags.UpstreamProxy = Except.ok u) ∧
          req.URL.Scheme ≠ "http"))) ∧
    (req.URL.Scheme ≠ "http" →
      (onRequest env Flags req ctx w).ctx.RoundTripper =
          (onRequest env Flags { req with URL := { req.URL with Scheme := "https" } }
            ctx w).ctx.RoundTripper ∧
        ((onRequest env Flags req ctx w).resp = none ↔
          (onRequest env Flags { req with URL := { req.URL with Scheme := "https" } }
            ctx w).resp = none)) ∧
    (onRequest env Flags req ctx w).req = req := by
  have hhttps : ∀ r : Request,
      ({ r with URL := { r.URL with Scheme := "https" } } : Request).URL.Scheme ≠ "http" := by
    intro r; show ("https" : String) ≠ "http"; decide
  rcases onRequest_cases env Flags req ctx w with ⟨h0, e, he, heq⟩ | ⟨up, hup, heq⟩
  · have hno : ¬ ((Flags.UpstreamProxy = "" ∨
        ∃ u, env.urlParse Flags.UpstreamProxy = Except.ok u) ∧ req.URL.Scheme ≠ "http") := by
      rintro ⟨h | ⟨u, hu⟩, _⟩
      · exact h0 h
      · rw [he] at hu; cases hu
    have hrt : (onRequest env Flags req ctx w).ctx.RoundTripper = ctx.RoundTripper := by
      rw [heq]; rfl
    refine ⟨fun h => absurd h hno, fun _ => hrt, fun hn => ?_, fun _ => ?_, by rw [heq]⟩
    · rw [hrt, hn]; simp [hno]
    · rw [heq, onRequest_unparsed env Flags _ ctx w h0 e he]
      exact ⟨rfl, by simp⟩
  · have hok : Flags.UpstreamProxy = "" ∨ ∃ u, env.urlParse Flags.UpstreamProxy = Except.ok u := by
      rcases hup with ⟨h, _⟩ | ⟨_, u, hu, _⟩
      · exact Or.inl h
      · exact Or.inr ⟨u, hu⟩
    have heq2 : onRequest env Flags { req with URL := { req.URL with Scheme := "https" } } ctx w =
        onRequestScheme ClientHelloID.HelloRandomizedALPN
          { req with URL := { req.URL with Scheme := "https" } }
          (withPayload Flags { req with URL := { req.URL with Scheme := "https" } } ctx)
          (withWeights w) up := by
      rcases hup with ⟨h, hu⟩ | ⟨h, u, hu, hu2⟩
      · rw [hu]; exact onRequest_empty env Flags _ ctx w h
      · rw [hu2]; exact onRequest_parsed env Flags _ ctx w h u hu
    by_cases hs : req.URL.Scheme = "http"
    · have hno : ¬ ((Flags.UpstreamProxy = "" ∨
          ∃ u, env.urlParse Flags.UpstreamProxy = Except.ok u) ∧ req.URL.Scheme ≠ "http") :=
        fun h => h.2 hs
      have hrt : (onRequest env Flags req ctx w).ctx.RoundTripper = ctx.RoundTripper := by
        rw [heq, onRequestScheme_http _ _ _ _ _ hs]; rfl
      refine ⟨fun h => absurd h hno, fun _ => hrt, fun hn => ?_, fun h => absurd hs h, ?_⟩
      · rw [hrt, hn]; simp [hno]
      · rw [heq, onRequestScheme_http _ _ _ _ _ hs]
    · have hyes : (Flags.UpstreamProxy = "" ∨
          ∃ u, env.urlParse Flags.UpstreamProxy = Except.ok u) ∧ req.URL.Scheme ≠ "http" :=
        ⟨hok, hs⟩
      rw [heq, onRequestScheme_tls _ _ _ _ _ hs]
      refine ⟨fun _ => ⟨_, rfl⟩, fun h => absurd hyes h, fun _ => ?_, fun _ => ?_, rfl⟩
      · simp [hyes]
      · rw [heq2, onRequestScheme_tls _ _ _ _ _ (hhttps req)]
        exact ⟨rfl, Iff.rfl⟩

/-- The theorem of C10 at a request whose scheme is the upper-case `HTTP`: it is not the
string `http`, and the round tripper is installed as for `https`. -/
theorem round_tripper_installed_iff_witness :
    (sampleRequest "HTTP").URL.Scheme ≠ "http" ∧
    (onRequest sampleEnv (sampleFlags "a" "8080" "") (sampleRequest "HTTP")
        (sampleCtx (sampleRequest "HTTP")) World.initial).ctx.RoundTripper =
      (onRequest sampleEnv (sampleFlags "a" "8080" "") (sampleRequest "https")
        (sampleCtx (sampleRequest "HTTP")) World.initial).ctx.RoundTripper ∧
    (onRequest sampleEnv (sampleFlags "a" "8080" "") (sampleRequest "HTTP")
        (sampleCtx (sampleRequest "HTTP")) World.initial).ctx.RoundTripper ≠ none :=
  ⟨by decide,
   ((round_tripper_installed_iff sampleEnv (sampleFlags "a" "8080" "") (sampleRequest "HTTP")
      (sampleCtx (sampleRequest "HTTP")) World.initial).2.2.2.1 (by decide)).1,
   ((round_tripper_installed_iff sampleEnv (sampleFlags "a" "8080" "") (sampleRequest "HTTP")
      (sampleCtx (sampleRequest "HTTP")) World.initial).2.2.1 rfl).2
      ⟨Or.inl rfl, by decide⟩⟩

/-! ## The registry and the listener: claims C3, C6, C7 -/

/-- C7: after `initServer(Flags)` the registry maps `Flags.Id` to an instance whose server is
the returned server, the address of that server is `Flags.Addr ++ ":" ++ Flags.Port`, and
the entry of every other identifier is what it was. -/
theorem initServer_registers_instance (Flags : ProxySetup) (w : World) :
    (∃ inst, (initServer Flags w).2.proxyInstanceMap.get Flags.Id = some inst ∧
      inst.Server = (initServer Flags w).1) ∧
    (initServer Flags w).1.Addr = Flags.Addr ++ ":" ++ Flags.Port ∧
    ∀ id, id ≠ Flags.Id →
      (initServer Flags w).2.proxyInstanceMap.get id = w.proxyInstanceMap.get id := by
  refine ⟨⟨_, InstanceMap.get_set_self _ _ _, rfl⟩, rfl, fun id hid => ?_⟩
  exact InstanceMap.get_set_other _ _ _ _ hid

/-- C3, as stated, fails: with instance `a` registered on port 9090, starting a second
configuration with the identifier `a` (port 9091) reports nothing, `Launch` returns as for
any instance once its server is closed, and the registry entry of `a` is no longer the
first instance. -/
theorem duplicate_id_counterexample :
    (initServer (sampleFlags "a" "9090" "") World.initial).2.proxyInstanceMap.get "a" ≠ none ∧
    (initServer (sampleFlags "a" "9091" "")
        (initServer (sampleFlags "a" "9090" "") World.initial).2).2.proxyInstanceMap.get "a" ≠
      (initServer (sampleFlags "a" "9090" "") World.initial).2.proxyInstanceMap.get "a" ∧
    (Launch sampleEnv (sampleFlags "a" "9091" "")
        (initServer (sampleFlags "a" "9090" "") World.initial).2).exitCode = none := by
  decide

/-- C3, amended: starting an instance whose identifier is already in the registry does not
fail: `initServer` returns the new server and replaces the registry entry of the identifier
by the new instance (the returned server with a new cancel handle), which is not the first
instance; `Launch` then runs that server and returns when it is closed. -/
theorem duplicate_id_replaces_entry (env : Env) (Flags : ProxySetup) (w : World)
    (old : ProxyInstance) (_hold : w.proxyInstanceMap.get Flags.Id = some old)
    (hfresh : old.Cancel.ctxId < w.contexts) :
    (initServer Flags w).2.proxyInstanceMap.get Flags.Id =
        some { Server := (initServer Flags w).1, Cancel := { ctxId := w.contexts } } ∧
    (initServer Flags w).2.proxyInstanceMap.get Flags.Id ≠ some old ∧
    (env.ListenAndServe (initServer Flags w).1 = ServeError.ErrServerClosed →
      (Launch env Flags w).exitCode = none ∧
        (Launch env Flags w).world.proxyInstanceMap.get Flags.Id =
          some { Server := (initServer Flags w).1, Cancel := { ctxId := w.contexts } }) := by
  have hnew : (initServer Flags w).2.proxyInstanceMap.get Flags.Id =
      some { Server := (initServer Flags w).1, Cancel := { ctxId := w.contexts } } :=
    InstanceMap.get_set_self _ _ _
  refine ⟨hnew, ?_, fun herr => ?_⟩
  · rw [hnew]
    intro h
    have hc := congrArg (fun i => i.Cancel.ctxId) (Option.some.inj h)
    simp at hc
    omega
  · have hL : Launch env Flags w = Outcome.returned
        (if Flags.Id = "cli" ∨ (initServer Flags w).2.Config.Verbose = true then
          (initServer Flags w).2.logLine
            ("Hazetunnel listening at " ++ (initServer Flags w).1.Addr)
        else (initServer Flags w).2) := by
      simp only [Launch, herr, ne_eq, not_true_eq_false, if_false]
    rw [hL]
    refine ⟨rfl, ?_⟩
    split
    · exact hnew
    · exact hnew

/-- The amended C3 at the second start of the identifier `a`. -/
theorem duplicate_id_replaces_entry_witness :
    (initServer (sampleFlags "a" "9090" "") World.initial).2.proxyInstanceMap.get "a" =
      some { Server := (initServer (sampleFlags "a" "9090" "") World.initial).1,
             Cancel := { ctxId := 0 } } ∧
    (initServer (sampleFlags "a" "9091" "")
        (initServer (sampleFlags "a" "9090" "") World.initial).2).2.proxyInstanceMap.get "a" =
      some { Server := { Addr := "127.0.0.1:9091",
                         Handler := setupProxy NewProxyHttpServer (sampleFlags "a" "9091" "") },
             Cancel := { ctxId := 1 } } :=
  ⟨by decide,
   (duplicate_id_replaces_entry sampleEnv (sampleFlags "a" "9091" "")
     (initServer (sampleFlags "a" "9090" "") World.initial).2
     { Server := (initServer (sampleFlags "a" "9090" "") World.initial).1,
       Cancel := { ctxId := 0 } } (by decide) (by decide)).1⟩

/-- C6, as stated, fails: with instance `a` serving on port 9090, `Launch` of instance `b`
on the port 8080 that cannot be bound gets an error other than `http.ErrServerClosed` from
`ListenAndServe` and ends the process with status 1 instead of returning to its caller. -/
theorem listen_failure_counterexample :
    sampleEnv.ListenAndServe
        (initServer (sampleFlags "b" "8080" "")
          (initServer (sampleFlags "a" "9090" "") World.initial).2).1 =
      ServeError.other "listen tcp 127.0.0.1:8080: bind: address already in use" ∧
    (Launch sampleEnv (sampleFlags "b" "8080" "")
        (initServer (sampleFlags "a" "9090" "") World.initial).2).exitCode = some 1 := by
  decide

/-- C6, amended: a listener-level failure at start (`ListenAndServe` returning an error other
than `http.ErrServerClosed`) is not reported to the caller of `Launch`: `Launch` writes the
error to the log and the process exits with status 1 (`log.Fatalf`), which ends every
instance of the process. -/
theorem listen_failure_exits_process (env : Env) (Flags : ProxySetup) (w : World)
    (herr : env.ListenAndServe (initServer Flags w).1 ≠ ServeError.ErrServerClosed) :
    (Launch env Flags w).exitCode = some 1 ∧
    (Launch env Flags w).world.log.getLast? =
      some ("HTTP server ListenAndServe: " ++
        (env.ListenAndServe (initServer Flags w).1).Error) := by
  have hL : Launch env Flags w = Outcome.exited 1
      ((if Flags.Id = "cli" ∨ (initServer Flags w).2.Config.Verbose = true then
          (initServer Flags w).2.logLine
            ("Hazetunnel listening at " ++ (initServer Flags w).1.Addr)
        else (initServer Flags w).2).logLine
        ("HTTP server ListenAndServe: " ++
          (env.ListenAndServe (initServer Flags w).1).Error)) := by
    simp only [Launch, herr, ne_eq, not_false_eq_true, if_true]
  rw [hL]
  exact ⟨rfl, by simp [Outcome.world, World.logLine]⟩

/-- The amended C6 at the start of instance `b` on the port that cannot be bound. -/
theorem listen_failure_exits_process_witness :
    sampleEnv.ListenAndServe (initServer (sampleFlags "b" "8080" "") World.initial).1 ≠
      ServeError.ErrServerClosed ∧
    (Launch sampleEnv (sampleFlags "b" "8080" "") World.initial).exitCode = some 1 :=
  ⟨by decide,
   (listen_failure_exits_process sampleEnv (sampleFlags "b" "8080" "") World.initial
     (by decide)).1⟩

/-! ## The weight table: claim C9 -/

/-- The `float64` values of the sixteen constants of lines 65-80. -/
theorem handlerWeights_eq :
    handlerWeights =
      { Extensions_Append_ALPN := { mant := 6305039478318694, shift := 53 }
        TLSVersMax_Set_VersionTLS13 := { mant := 4503599627370496, shift := 52 }
        CipherSuites_Remove_RandomCiphers := { mant := 7205759403792794, shift := 54 }
        SigAndHashAlgos_Append_ECDSAWithSHA1 := { mant := 5674535530486825, shift := 53 }
        SigAndHashAlgos_Append_ECDSAWithP521AndSHA512 :=
          { mant := 5314247560297185, shift := 53 }
        SigAndHashAlgos_Append_PSSWithSHA256 := { mant := 4593671619917906, shift := 53 }
        SigAndHashAlgos_Append_PSSWithSHA384_PSSWithSHA512 :=
          { mant := 8106479329266893, shift := 53 }
        CurveIDs_Append_X25519 := { mant := 6395111470866104, shift := 53 }
        CurveIDs_Append_CurveP521 := { mant := 8286623314361713, shift := 54 }
        Extensions_Append_Padding := { mant := 5584463537939415, shift := 53 }
        Extensions_Append_Status := { mant := 6665327448508334, shift := 53 }
        Extensions_Append_SCT := { mant := 8286623314361713, shift := 54 }
        Extensions_Append_Reneg := { mant := 6755399441055744, shift := 53 }
        Extensions_Append_EMS := { mant := 6935543426150564, shift := 53 }
        FirstKeyShare_Set_CurveP256 := { mant := 4503599627370496, shift := 54 }
        Extensions_Append_ALPS := { mant := 5944751508129055, shift := 54 } } := by
  decide

/-- The handler leaves `handlerWeights` in `utls.DefaultWeights` on every path. -/
theorem onRequest_world (env : Env) (Flags : ProxySetup) (req : Request) (ctx : ProxyCtx)
    (w : World) : (onRequest env Flags req ctx w).world = withWeights w := by
  rcases onRequest_cases env Flags req ctx w with ⟨_, e, _, heq⟩ | ⟨up, _, heq⟩
  · rw [heq]
  · rw [heq]
    by_cases hs : req.URL.Scheme = "http"
    · rw [onRequestScheme_http _ _ _ _ _ hs]
    · rw [onRequestScheme_tls _ _ _ _ _ hs]

/-- C9: every weight of the table the handler leaves in `utls.DefaultWeights` lies in the
closed interval from 0 to 1, the weight `TLSVersMax_Set_VersionTLS13` is exactly 1, and the
table is the same for every request, every context and every configuration. -/
theorem handler_weights_are_probabilities (env : Env) (Flags : ProxySetup) (req : Request)
    (ctx : ProxyCtx) (w : World) :
    (∀ x ∈ (onRequest env Flags req ctx w).world.DefaultWeights.toList,
      0 ≤ x.toRat ∧ x.toRat ≤ 1) ∧
    (onRequest env Flags req ctx w).world.DefaultWeights.TLSVersMax_Set_VersionTLS13.toRat = 1 ∧
    (onRequest env Flags req ctx w).world.DefaultWeights = handlerWeights ∧
    ∀ (env2 : Env) (Flags2 : ProxySetup) (req2 : Request) (ctx2 : ProxyCtx) (w2 : World),
      (onRequest env2 Flags2 req2 ctx2 w2).world.DefaultWeights =
        (onRequest env Flags req ctx w).world.DefaultWeights := by
  have hw : (onRequest env Flags req ctx w).world.DefaultWeights = handlerWeights := by
    rw [onRequest_world]; rfl
  refine ⟨?_, ?_, hw, fun env2 Flags2 req2 ctx2 w2 => ?_⟩
  · rw [hw, handlerWeights_eq]
    intro x hx
    simp only [Weights.toList, List.mem_cons, List.mem_singleton, List.not_mem_nil,
      or_false] at hx
    rcases hx with h | h | h | h | h | h | h | h | h | h | h | h | h | h | h | h <;>
      subst h <;> constructor <;> norm_num [Float64.toRat]
  · rw [hw, handlerWeights_eq]
    norm_num [Float64.toRat]
  · rw [hw, onRequest_world]; rfl

end Hazetunnel
